import Mathlib

/-!
Shallow embedding of the stripe-mcp server (src/index.ts and the logger module)
together with proofs about its fraud-recommendation evaluator, the
fraud-insight orchestration, the tool-level input validation, and the
log-context sanitizer.
-/

set_option maxHeartbeats 1000000

namespace StripeMcp

/-- The `outcome` object attached to a Stripe charge, restricted to the fields
the evaluator reads: `risk_level` (nullable string) and `risk_score`
(nullable integer). -/
structure Outcome where
  risk_level : Option String
  risk_score : Option Int
deriving DecidableEq, Repr

/-- How the `payment_intent` field of a charge can appear: as a string ID or as
an expanded object.  The source only ever summarizes the expanded object, so
the model keeps just its `id`. -/
inductive PIField where
  | byId (id : String)
  | expandedObj (id : String)
deriving DecidableEq, Repr

/-- A Stripe charge, restricted to the fields read by `buildFraudInsight` and
`deriveRecommendation`: `id`, `outcome`, and `payment_intent`. -/
structure Charge where
  id : String
  outcome : Option Outcome
  payment_intent : Option PIField
deriving DecidableEq, Repr

/-- The `latest_charge` field of a payment intent: a string ID or an expanded
charge object. -/
inductive LatestCharge where
  | byId (id : String)
  | expanded (c : Charge)
deriving DecidableEq, Repr

/-- A Stripe payment intent, restricted to the fields the orchestration reads:
`id` and `latest_charge`. -/
structure PaymentIntent where
  id : String
  latest_charge : Option LatestCharge
deriving DecidableEq, Repr

/-- A Radar early fraud warning; the evaluator reads only `actionable`, the
other fields are carried for display. -/
structure EarlyFraudWarning where
  id : String
  actionable : Bool
  fraud_type : String
deriving DecidableEq, Repr

/-- A dispute record; the evaluator uses only the existence of disputes, the
fields are carried for display. -/
structure Dispute where
  id : String
  amount : Int
  status : String
deriving DecidableEq, Repr

/-- The possible recommendation actions (`FraudAction` in the source). -/
inductive FraudAction where
  | refund
  | manual_review
  | monitor
deriving DecidableEq, Repr

/-- A fraud recommendation: an action plus a human-readable reason. -/
structure FraudRecommendation where
  action : FraudAction
  reason : String
deriving DecidableEq, Repr

/-- `riskLevel` as computed in `deriveRecommendation`:
`charge.outcome?.risk_level ?? null`. -/
def chargeRiskLevel (charge : Charge) : Option String :=
  charge.outcome.bind fun o => o.risk_level

/-- `riskScore` as computed in `deriveRecommendation`:
`charge.outcome?.risk_score ?? 0`. -/
def chargeRiskScore (charge : Charge) : Int :=
  (charge.outcome.bind fun o => o.risk_score).getD 0

/-- The fraud-recommendation evaluator (`deriveRecommendation`,
src/index.ts lines 775-822), a pure decision table evaluated top to bottom. -/
def deriveRecommendation (charge : Charge)
    (earlyFraudWarnings : List EarlyFraudWarning)
    (disputes : List Dispute) : FraudRecommendation :=
  if disputes.length > 0 then
    ⟨FraudAction.refund,
      "Existing dispute detected. Prefer immediate refund to reduce losses."⟩
  else if earlyFraudWarnings.any fun warning => warning.actionable then
    ⟨FraudAction.refund,
      "Actionable Radar early fraud warning present. Stripe recommends refunding."⟩
  else
    if chargeRiskLevel charge = some "highest" ∨ chargeRiskScore charge ≥ 75 then
      ⟨FraudAction.refund,
        "High risk detected (level: " ++ (chargeRiskLevel charge).getD "n/a" ++ ", score: "
          ++ toString (chargeRiskScore charge) ++ ")."⟩
    else if chargeRiskLevel charge = some "elevated" ∨ chargeRiskScore charge ≥ 50 then
      ⟨FraudAction.manual_review,
        "Elevated risk level. Review supporting evidence before issuing refund."⟩
    else
      ⟨FraudAction.monitor,
        "No disputes or actionable warnings. Monitor the transaction for future signals."⟩

example :
    (deriveRecommendation ⟨"ch_1", some ⟨none, some 75⟩, none⟩ [] []).action
      = FraudAction.refund := by decide

example :
    (deriveRecommendation ⟨"ch_1", some ⟨none, some 74⟩, none⟩ [] []).action
      = FraudAction.manual_review := by decide

example :
    (deriveRecommendation ⟨"ch_1", some ⟨none, some 49⟩, none⟩ [] []).action
      = FraudAction.monitor := by decide

example :
    (deriveRecommendation ⟨"ch_1", some ⟨none, some 99⟩, none⟩ []
        [⟨"dp_1", 5, "open"⟩]).action = FraudAction.refund := by decide

/-- C1: whenever the dispute list is non-empty, `deriveRecommendation` returns
action `refund` with the reason citing an existing dispute, regardless of the
charge outcome (risk level and score) and of the early-fraud-warning list. -/
theorem derive_dispute_refund (charge : Charge)
    (earlyFraudWarnings : List EarlyFraudWarning) (disputes : List Dispute)
    (h : disputes ≠ []) :
    deriveRecommendation charge earlyFraudWarnings disputes =
      ⟨FraudAction.refund,
        "Existing dispute detected. Prefer immediate refund to reduce losses."⟩ := by
  unfold deriveRecommendation
  rw [if_pos (List.length_pos.mpr h)]

/-- C1 witness: concrete instance with one dispute, highest possible risk
signals absent, and a non-actionable warning. -/
theorem derive_dispute_refund_witness :
    deriveRecommendation ⟨"ch_1", some ⟨some "normal", some 3⟩, none⟩
        [⟨"efw_1", false, "card_never_received"⟩] [⟨"dp_1", 500, "open"⟩] =
      ⟨FraudAction.refund,
        "Existing dispute detected. Prefer immediate refund to reduce losses."⟩ :=
  derive_dispute_refund _ _ _ (by decide)

/-- C2: with no disputes but at least one early fraud warning flagged
`actionable`, the evaluator returns action `refund` with the reason citing an
actionable early fraud warning, regardless of risk level and score. -/
theorem derive_actionable_warning_refund (charge : Charge)
    (earlyFraudWarnings : List EarlyFraudWarning) (disputes : List Dispute)
    (hds : disputes = []) (w : EarlyFraudWarning) (hw : w ∈ earlyFraudWarnings)
    (ha : w.actionable = true) :
    deriveRecommendation charge earlyFraudWarnings disputes =
      ⟨FraudAction.refund,
        "Actionable Radar early fraud warning present. Stripe recommends refunding."⟩ := by
  subst hds
  unfold deriveRecommendation
  rw [if_neg (by simp)]
  rw [if_pos (List.any_eq_true.mpr ⟨w, hw, ha⟩)]

/-- C2 witness: one actionable warning, no disputes, benign outcome. -/
theorem derive_actionable_warning_refund_witness :
    deriveRecommendation ⟨"ch_2", some ⟨some "normal", some 1⟩, none⟩
        [⟨"efw_1", false, "misc"⟩, ⟨"efw_2", true, "fraudulent"⟩] [] =
      ⟨FraudAction.refund,
        "Actionable Radar early fraud warning present. Stripe recommends refunding."⟩ :=
  derive_actionable_warning_refund _ _ _ rfl ⟨"efw_2", true, "fraudulent"⟩
    (by decide) rfl

/-- C3: with no disputes and no actionable warnings, a risk level of
`highest` or a risk score of at least 75 (score defaulting to 0 when absent)
yields action `refund`; the boundary is inclusive, and an absent risk score
defaults to 0 and hence can never trigger the threshold. -/
theorem derive_high_risk (charge : Charge)
    (earlyFraudWarnings : List EarlyFraudWarning) (disputes : List Dispute)
    (hds : disputes = [])
    (hws : ∀ w ∈ earlyFraudWarnings, w.actionable = false) :
    ((chargeRiskLevel charge = some "highest" ∨ chargeRiskScore charge ≥ 75) →
        (deriveRecommendation charge earlyFraudWarnings disputes).action =
          FraudAction.refund)
      ∧ (charge.outcome.bind (fun o => o.risk_score) = none →
          chargeRiskScore charge = 0)
      ∧ (charge.outcome.bind (fun o => o.risk_score) = none →
          chargeRiskLevel charge ≠ some "highest" →
          (deriveRecommendation charge earlyFraudWarnings disputes).action ≠
            FraudAction.refund) := by
  subst hds
  have hany : (earlyFraudWarnings.any fun w => w.actionable) = false := by
    simp only [List.any_eq_false]
    intro w hw
    simp [hws w hw]
  refine ⟨?_, ?_, ?_⟩
  · intro h
    unfold deriveRecommendation
    rw [if_neg (by simp), if_neg (by simp [hany]), if_pos h]
  · intro h
    unfold chargeRiskScore
    rw [h]
    rfl
  · intro hnone hlvl
    have hscore : chargeRiskScore charge = 0 := by
      unfold chargeRiskScore
      rw [hnone]
      rfl
    unfold deriveRecommendation
    rw [if_neg (by simp), if_neg (by simp [hany]),
      if_neg (by simp [hlvl, hscore])]
    split
    · simp
    · simp

/-- C3 witness: a risk score of exactly 75 (boundary) with no level set, no
disputes and no warnings, is recommended for refund. -/
theorem derive_high_risk_witness :
    (deriveRecommendation ⟨"ch_3", some ⟨none, some 75⟩, none⟩ [] []).action =
      FraudAction.refund :=
  (derive_high_risk ⟨"ch_3", some ⟨none, some 75⟩, none⟩ [] [] rfl
    (by simp)).1 (Or.inr (by decide))

/-- C4: with no disputes, no actionable warnings and the high-risk rule not
matching, risk level `elevated` or risk score at least 50 yields
`manual_review`, and otherwise the result is `monitor` with the default
low-risk reason; in particular a charge with no outcome at all evaluated on
empty lists yields `monitor` with the default reason. -/
theorem derive_elevated_or_monitor :
    (∀ (charge : Charge) (earlyFraudWarnings : List EarlyFraudWarning)
        (disputes : List Dispute),
        disputes = [] →
        (∀ w ∈ earlyFraudWarnings, w.actionable = false) →
        chargeRiskLevel charge ≠ some "highest" →
        chargeRiskScore charge < 75 →
        ((chargeRiskLevel charge = some "elevated" ∨ chargeRiskScore charge ≥ 50) →
            (deriveRecommendation charge earlyFraudWarnings disputes).action =
              FraudAction.manual_review)
          ∧ (chargeRiskLevel charge ≠ some "elevated" →
              chargeRiskScore charge < 50 →
              deriveRecommendation charge earlyFraudWarnings disputes =
                ⟨FraudAction.monitor,
                  "No disputes or actionable warnings. Monitor the transaction for future signals."⟩))
      ∧ ∀ charge : Charge, charge.outcome = none →
          deriveRecommendation charge [] [] =
            ⟨FraudAction.monitor,
              "No disputes or actionable warnings. Monitor the transaction for future signals."⟩ := by
  constructor
  · intro charge earlyFraudWarnings disputes hds hws hlvl hsc
    subst hds
    have hany : (earlyFraudWarnings.any fun w => w.actionable) = false := by
      simp only [List.any_eq_false]
      intro w hw
      simp [hws w hw]
    constructor
    · intro h
      unfold deriveRecommendation
      rw [if_neg (by simp), if_neg (by simp [hany]),
        if_neg (by simp [hlvl, not_le.mpr hsc]), if_pos h]
    · intro hlvl2 hsc2
      unfold deriveRecommendation
      rw [if_neg (by simp), if_neg (by simp [hany]),
        if_neg (by simp [hlvl, not_le.mpr hsc]),
        if_neg (by simp [hlvl2, not_le.mpr hsc2])]
  · intro charge hout
    have h1 : chargeRiskLevel charge = none := by simp [chargeRiskLevel, hout]
    have h2 : chargeRiskScore charge = 0 := by simp [chargeRiskScore, hout]
    unfold deriveRecommendation
    rw [if_neg (by simp), if_neg (by simp), if_neg (by simp [h1, h2]),
      if_neg (by simp [h1, h2])]

/-- C4 witness: risk score 50 (no level) yields `manual_review`, risk score 49
yields `monitor` with the default reason, and a charge with no outcome on
empty lists yields `monitor` with the default reason. -/
theorem derive_elevated_or_monitor_witness :
    (deriveRecommendation ⟨"ch_4", some ⟨none, some 50⟩, none⟩ [] []).action =
        FraudAction.manual_review
      ∧ deriveRecommendation ⟨"ch_4", some ⟨none, some 49⟩, none⟩ [] [] =
        ⟨FraudAction.monitor,
          "No disputes or actionable warnings. Monitor the transaction for future signals."⟩
      ∧ deriveRecommendation ⟨"ch_4", none, none⟩ [] [] =
        ⟨FraudAction.monitor,
          "No disputes or actionable warnings. Monitor the transaction for future signals."⟩ :=
  ⟨(derive_elevated_or_monitor.1 ⟨"ch_4", some ⟨none, some 50⟩, none⟩ [] [] rfl
      (by simp) (by decide) (by decide)).1 (Or.inr (by decide)),
    (derive_elevated_or_monitor.1 ⟨"ch_4", some ⟨none, some 49⟩, none⟩ [] [] rfl
      (by simp) (by decide) (by decide)).2 (by decide) (by decide),
    derive_elevated_or_monitor.2 ⟨"ch_4", none, none⟩ rfl⟩

/-- C5: `deriveRecommendation` is a total pure function of its three inputs:
any two invocations on identical inputs return the same action and the same
reason string.  Totality over well-typed inputs is inherent in its definition
as a Lean function. -/
theorem derive_deterministic (charge1 charge2 : Charge)
    (ws1 ws2 : List EarlyFraudWarning) (ds1 ds2 : List Dispute)
    (hc : charge1 = charge2) (hw : ws1 = ws2) (hd : ds1 = ds2) :
    (deriveRecommendation charge1 ws1 ds1).action =
        (deriveRecommendation charge2 ws2 ds2).action
      ∧ (deriveRecommendation charge1 ws1 ds1).reason =
        (deriveRecommendation charge2 ws2 ds2).reason := by
  subst hc
  subst hw
  subst hd
  exact ⟨rfl, rfl⟩

/-- C5 witness: two invocations on an identical concrete input agree. -/
theorem derive_deterministic_witness :
    (deriveRecommendation ⟨"ch_5", some ⟨some "elevated", some 60⟩, none⟩
          [⟨"efw_1", false, "misc"⟩] []).action =
        (deriveRecommendation ⟨"ch_5", some ⟨some "elevated", some 60⟩, none⟩
          [⟨"efw_1", false, "misc"⟩] []).action
      ∧ (deriveRecommendation ⟨"ch_5", some ⟨some "elevated", some 60⟩, none⟩
          [⟨"efw_1", false, "misc"⟩] []).reason =
        (deriveRecommendation ⟨"ch_5", some ⟨some "elevated", some 60⟩, none⟩
          [⟨"efw_1", false, "misc"⟩] []).reason :=
  derive_deterministic _ _ _ _ _ _ rfl rfl rfl

/-- C6: the evaluator depends on the charge only through its outcome, on the
dispute list only through its non-emptiness, and on the warnings only through
the multiset of their `actionable` flags: inputs agreeing on the charge
outcome, on dispute-list emptiness, and on a permutation of the actionable
flags yield the same recommendation. -/
theorem derive_depends_only_on_signals (charge1 charge2 : Charge)
    (ws1 ws2 : List EarlyFraudWarning) (ds1 ds2 : List Dispute)
    (hc : charge1.outcome = charge2.outcome)
    (hd : ds1 = [] ↔ ds2 = [])
    (hw : List.Perm (ws1.map fun w => w.actionable)
      (ws2.map fun w => w.actionable)) :
    deriveRecommendation charge1 ws1 ds1 = deriveRecommendation charge2 ws2 ds2 := by
  have hlvl : chargeRiskLevel charge1 = chargeRiskLevel charge2 := by
    unfold chargeRiskLevel
    rw [hc]
  have hsc : chargeRiskScore charge1 = chargeRiskScore charge2 := by
    unfold chargeRiskScore
    rw [hc]
  have hlen : ds1.length > 0 ↔ ds2.length > 0 := by
    simp only [gt_iff_lt, List.length_pos]
    exact not_congr hd
  have hany : (ws1.any fun w => w.actionable) = (ws2.any fun w => w.actionable) := by
    cases hb1 : ws1.any fun w => w.actionable <;>
      cases hb2 : ws2.any fun w => w.actionable
    · rfl
    · rw [List.any_eq_true] at hb2
      rw [List.any_eq_false] at hb1
      obtain ⟨w, hwmem, hwact⟩ := hb2
      have hmem2 : (true : Bool) ∈ ws2.map fun w => w.actionable :=
        List.mem_map.mpr ⟨w, hwmem, hwact⟩
      obtain ⟨w1, hw1, ha1⟩ := List.mem_map.mp (hw.mem_iff.mpr hmem2)
      exact absurd ha1 (by simp [hb1 w1 hw1])
    · rw [List.any_eq_true] at hb1
      rw [List.any_eq_false] at hb2
      obtain ⟨w, hwmem, hwact⟩ := hb1
      have hmem1 : (true : Bool) ∈ ws1.map fun w => w.actionable :=
        List.mem_map.mpr ⟨w, hwmem, hwact⟩
      obtain ⟨w2, hw2, ha2⟩ := List.mem_map.mp (hw.mem_iff.mp hmem1)
      exact absurd ha2 (by simp [hb2 w2 hw2])
    · rfl
  unfold deriveRecommendation
  rw [hany, hlvl, hsc]
  by_cases h : ds2.length > 0
  · rw [if_pos h, if_pos (hlen.mpr h)]
  · rw [if_neg (fun hh => h (hlen.mp hh)), if_neg h]

/-- C6 witness: charges differing in `id` and `payment_intent` but agreeing
on the outcome, with distinct dispute contents and warning contents but equal
signal abstractions, give the same recommendation. -/
theorem derive_depends_only_on_signals_witness :
    deriveRecommendation ⟨"ch_6a", some ⟨some "normal", some 10⟩, none⟩
        [⟨"efw_a", true, "fraudulent"⟩] [⟨"dp_a", 100, "open"⟩] =
      deriveRecommendation ⟨"ch_6b", some ⟨some "normal", some 10⟩,
          some (PIField.byId "pi_6b")⟩
        [⟨"efw_b", true, "misc"⟩] [⟨"dp_b", 999, "closed"⟩] :=
  derive_depends_only_on_signals _ _ _ _ _ _ rfl (by simp) (by decide)

/-- JavaScript truthiness of an optional string field: absent and empty
strings are falsy (the source guards use `if (input.payment_intent_id)` and
similar). -/
def strTruthy : Option String → Bool
  | none => false
  | some s => s != ""

/-- Validated input of the `stripe_fraud_insight` tool: two optional
identifiers plus `include_events` (defaulted to `true` by the schema, so a
plain `Bool` here). -/
structure FraudInsightInput where
  payment_intent_id : Option String
  charge_id : Option String
  include_events : Bool
deriving DecidableEq, Repr

/-- The upstream Stripe API as seen by `buildFraudInsight`: one oracle per
endpoint the function awaits.  `none` from a retrieve endpoint models a thrown
Stripe error (which the source propagates); list endpoints are modelled as
total. -/
structure StripeEnv where
  paymentIntents : String → Option PaymentIntent
  charges : String → Option Charge
  chargesByPaymentIntent : String → List Charge
  earlyFraudWarningsByCharge : String → List EarlyFraudWarning
  disputesByCharge : String → List Dispute

/-- The `payment_intent_id` block of `buildFraudInsight` (src/index.ts lines
473-515): retrieve the payment intent, then adopt its expanded latest charge
or fetch the latest charge by ID.  Returns `none` when an API call throws;
otherwise the pair (paymentIntent so far, charge so far). -/
def resolvePaymentIntentPhase (env : StripeEnv) (input : FraudInsightInput) :
    Option (Option PaymentIntent × Option Charge) :=
  if strTruthy input.payment_intent_id then
    match env.paymentIntents (input.payment_intent_id.getD "") with
    | none => none
    | some pi =>
      match pi.latest_charge with
      | some (LatestCharge.expanded c) => some (some pi, some c)
      | some (LatestCharge.byId cid) =>
        match env.charges cid with
        | none => none
        | some c => some (some pi, some c)
      | none => some (some pi, none)
  else
    some (none, none)

/-- The `charge_id` block of `buildFraudInsight` (src/index.ts lines 517-556):
retrieve the charge, then fill in the payment intent from the charge when the
charge references one (by retrieval when it is a string ID and no payment
intent is known yet, directly when it is an expanded object). -/
def resolveChargePhase (env : StripeEnv) (input : FraudInsightInput)
    (acc : Option PaymentIntent × Option Charge) :
    Option (Option PaymentIntent × Option Charge) :=
  if strTruthy input.charge_id then
    match env.charges (input.charge_id.getD "") with
    | none => none
    | some c =>
      match c.payment_intent with
      | some (PIField.byId pid) =>
        if pid != "" then
          match acc.1 with
          | none =>
            match env.paymentIntents pid with
            | none => none
            | some pi2 => some (some pi2, some c)
          | some pi => some (some pi, some c)
        else
          some (acc.1, some c)
      | some (PIField.expandedObj pid) => some (some ⟨pid, none⟩, some c)
      | none => some (acc.1, some c)
  else
    some acc

/-- The charge-inference block of `buildFraudInsight` (src/index.ts lines
558-575): when no charge was found but a payment intent with a truthy `id`
was, take the first charge listed for that payment intent. -/
def resolveListPhase (env : StripeEnv)
    (acc : Option PaymentIntent × Option Charge) :
    Option PaymentIntent × Option Charge :=
  match acc with
  | (some pi, none) =>
    if pi.id != "" then (some pi, (env.chargesByPaymentIntent pi.id).head?)
    else (some pi, none)
  | _ => acc

/-- The full charge/payment-intent resolution sequence of
`buildFraudInsight`. -/
def resolveEntities (env : StripeEnv) (input : FraudInsightInput) :
    Option (Option PaymentIntent × Option Charge) :=
  match resolvePaymentIntentPhase env input with
  | none => none
  | some acc =>
    match resolveChargePhase env input acc with
    | none => none
    | some acc2 => some (resolveListPhase env acc2)

/-- The dispute list handed to the evaluator (src/index.ts lines 595-602):
fetched only when `include_events` is true, otherwise the empty list. -/
def insightDisputes (env : StripeEnv) (input : FraudInsightInput)
    (chargeId : String) : List Dispute :=
  if input.include_events then env.disputesByCharge chargeId else []

/-- The caller-level fallback recommendation used when no charge could be
resolved (src/index.ts lines 643-647). -/
def noChargeRecommendation : FraudRecommendation :=
  ⟨FraudAction.manual_review,
    "No charge details available. Review manually before taking action."⟩

/-- Result of `buildFraudInsight`, restricted to the recommendation (the
summary fields of the source result do not influence any claim). -/
structure FraudInsightResult where
  recommendation : FraudRecommendation
deriving DecidableEq, Repr

/-- `buildFraudInsight` (src/index.ts lines 453-655), modelled over the
`StripeEnv` oracles: resolve the charge, collect the warnings and (when
`include_events`) the disputes, and evaluate; when no charge is resolved,
substitute the fallback recommendation without invoking the evaluator.
Returns `none` when an upstream call throws. -/
def buildFraudInsight (env : StripeEnv) (input : FraudInsightInput) :
    Option FraudInsightResult :=
  match resolveEntities env input with
  | none => none
  | some (_, some charge) =>
    some ⟨deriveRecommendation charge (env.earlyFraudWarningsByCharge charge.id)
      (insightDisputes env input charge.id)⟩
  | some (_, none) => some ⟨noChargeRecommendation⟩

/-- The `stripe_fraud_insight` handler (src/index.ts lines 186-240), reduced
to its decision-relevant skeleton: reject when both identifiers are missing
or empty, otherwise run `buildFraudInsight` (an upstream throw becomes a
propagated error). -/
def stripeFraudInsightTool (env : StripeEnv) (input : FraudInsightInput) :
    Except String FraudInsightResult :=
  if !strTruthy input.payment_intent_id && !strTruthy input.charge_id then
    Except.error
      "You must provide either payment_intent_id or charge_id to retrieve fraud insights."
  else
    match buildFraudInsight env input with
    | some r => Except.ok r
    | none => Except.error "Stripe API error"

/-- The refund reasons accepted by the `stripe_create_refund` schema. -/
inductive RefundReason where
  | duplicate
  | fraudulent
  | requested_by_customer
deriving DecidableEq, Repr

/-- Validated input of the `stripe_create_refund` tool. -/
structure RefundInput where
  payment_intent_id : Option String
  charge_id : Option String
  amount : Option Int
  reason : Option RefundReason
  metadata : Option (List (String × String))
deriving DecidableEq, Repr

/-- The parameters the handler would send to `stripe.refunds.create`. -/
structure RefundCreateParams where
  payment_intent : Option String
  charge : Option String
  amount : Option Int
  reason : Option RefundReason
  metadata : Option (List (String × String))
deriving DecidableEq, Repr

/-- The pure prefix of the `stripe_create_refund` handler (src/index.ts lines
251-289): reject when both identifiers are missing or empty, otherwise build
the refund-creation parameters field by field. -/
def stripeCreateRefundParams (input : RefundInput) :
    Except String RefundCreateParams :=
  if !strTruthy input.payment_intent_id && !strTruthy input.charge_id then
    Except.error
      "You must provide either payment_intent_id or charge_id to create a refund."
  else
    Except.ok
      ⟨if strTruthy input.payment_intent_id then input.payment_intent_id else none,
        if strTruthy input.charge_id then input.charge_id else none,
        input.amount, input.reason, input.metadata⟩

/-- The rule-3 reason string can never equal the rule-1 (dispute) reason,
whatever level and score strings are interpolated. -/
theorem highRiskReasonNeDispute (a b : String) :
    ("High risk detected (level: " ++ a ++ ", score: " ++ b ++ ").") ≠
      "Existing dispute detected. Prefer immediate refund to reduce losses." := by
  intro h
  have h2 := congrArg String.data h
  simp only [String.data_append, List.cons_append, List.append_assoc] at h2
  exact absurd (List.head_eq_of_cons_eq h2) (by decide)

/-- On an empty dispute list the evaluator never returns the dispute-triggered
recommendation. -/
theorem deriveEmptyDisputesNeDisputeRec (charge : Charge)
    (ws : List EarlyFraudWarning) :
    deriveRecommendation charge ws [] ≠
      ⟨FraudAction.refund,
        "Existing dispute detected. Prefer immediate refund to reduce losses."⟩ := by
  unfold deriveRecommendation
  rw [if_neg (by simp)]
  split
  · intro h
    exact absurd (congrArg FraudRecommendation.reason h) (by decide)
  · split
    · intro h
      exact highRiskReasonNeDispute _ _ (congrArg FraudRecommendation.reason h)
    · split
      · intro h
        exact absurd (congrArg FraudRecommendation.action h) (by decide)
      · intro h
        exact absurd (congrArg FraudRecommendation.action h) (by decide)

/-- No evaluator output equals the caller-level fallback recommendation. -/
theorem deriveNeNoChargeRec (charge : Charge) (ws : List EarlyFraudWarning)
    (ds : List Dispute) :
    deriveRecommendation charge ws ds ≠ noChargeRecommendation := by
  unfold deriveRecommendation noChargeRecommendation
  split
  · intro h
    simpa using congrArg FraudRecommendation.action h
  · split
    · intro h
      simpa using congrArg FraudRecommendation.action h
    · split
      · intro h
        simpa using congrArg FraudRecommendation.action h
      · split
        · intro h
          simpa using congrArg FraudRecommendation.reason h
        · intro h
          simpa using congrArg FraudRecommendation.action h

/-- C7: when the resolution sequence finds no charge, `buildFraudInsight`
returns the forced `manual_review` fallback citing missing charge details,
and this outcome is not one the evaluator can produce (so the evaluator is
not consulted on this path). -/
theorem fraud_insight_no_charge_fallback (env : StripeEnv)
    (input : FraudInsightInput) (piOpt : Option PaymentIntent)
    (hres : resolveEntities env input = some (piOpt, none)) :
    buildFraudInsight env input = some ⟨noChargeRecommendation⟩
      ∧ noChargeRecommendation.action = FraudAction.manual_review
      ∧ noChargeRecommendation.reason =
          "No charge details available. Review manually before taking action."
      ∧ ∀ (c : Charge) (ws : List EarlyFraudWarning) (ds : List Dispute),
          deriveRecommendation c ws ds ≠ noChargeRecommendation := by
  refine ⟨?_, rfl, rfl, deriveNeNoChargeRec⟩
  unfold buildFraudInsight
  rw [hres]

/-- C7 witness: an environment that knows no objects together with an input
carrying no identifiers resolves no charge, and the fallback is returned. -/
theorem fraud_insight_no_charge_fallback_witness :
    buildFraudInsight
        ⟨fun _ => none, fun _ => none, fun _ => [], fun _ => [], fun _ => []⟩
        ⟨none, none, true⟩ = some ⟨noChargeRecommendation⟩ :=
  (fraud_insight_no_charge_fallback
    ⟨fun _ => none, fun _ => none, fun _ => [], fun _ => [], fun _ => []⟩
    ⟨none, none, true⟩ none rfl).1

/-- C8: both tools reject an invocation carrying neither a payment-intent
identifier nor a charge identifier with an error; at least one identifier is
required for the call to proceed. -/
theorem tools_require_identifier :
    (∀ (env : StripeEnv) (input : FraudInsightInput),
        input.payment_intent_id = none → input.charge_id = none →
        stripeFraudInsightTool env input =
          Except.error
            "You must provide either payment_intent_id or charge_id to retrieve fraud insights.")
      ∧ ∀ input : RefundInput,
          input.payment_intent_id = none → input.charge_id = none →
          stripeCreateRefundParams input =
            Except.error
              "You must provide either payment_intent_id or charge_id to create a refund." := by
  constructor
  · intro env input h1 h2
    unfold stripeFraudInsightTool
    rw [h1, h2]
    rfl
  · intro input h1 h2
    unfold stripeCreateRefundParams
    rw [h1, h2]
    rfl

/-- C8 witness: concrete identifier-free invocations of both tools fail. -/
theorem tools_require_identifier_witness :
    stripeFraudInsightTool
        ⟨fun _ => none, fun _ => none, fun _ => [], fun _ => [], fun _ => []⟩
        ⟨none, none, true⟩ =
      Except.error
        "You must provide either payment_intent_id or charge_id to retrieve fraud insights."
      ∧ stripeCreateRefundParams ⟨none, none, none, none, none⟩ =
        Except.error
          "You must provide either payment_intent_id or charge_id to create a refund." :=
  ⟨tools_require_identifier.1
      ⟨fun _ => none, fun _ => none, fun _ => [], fun _ => [], fun _ => []⟩
      ⟨none, none, true⟩ rfl rfl,
    tools_require_identifier.2 ⟨none, none, none, none, none⟩ rfl rfl⟩

/-- C9: with `include_events = false` the dispute list handed to the
evaluator is always empty, and consequently no successful insight can carry
the dispute-triggered refund recommendation, whatever disputes exist
upstream. -/
theorem include_events_false_no_dispute_refund (env : StripeEnv)
    (input : FraudInsightInput) (hie : input.include_events = false) :
    (∀ chargeId, insightDisputes env input chargeId = [])
      ∧ ∀ r, buildFraudInsight env input = some r →
          r.recommendation ≠
            ⟨FraudAction.refund,
              "Existing dispute detected. Prefer immediate refund to reduce losses."⟩ := by
  have hemp : ∀ chargeId, insightDisputes env input chargeId = [] := by
    intro cid
    unfold insightDisputes
    rw [hie]
    simp
  refine ⟨hemp, ?_⟩
  intro r hr
  unfold buildFraudInsight at hr
  cases hres : resolveEntities env input with
  | none =>
    rw [hres] at hr
    exact absurd hr (by simp)
  | some acc =>
    obtain ⟨piOpt, chOpt⟩ := acc
    rw [hres] at hr
    cases chOpt with
    | some c =>
      simp only [Option.some.injEq] at hr
      rw [← hr]
      rw [hemp c.id]
      exact deriveEmptyDisputesNeDisputeRec c (env.earlyFraudWarningsByCharge c.id)
    | none =>
      simp only [Option.some.injEq] at hr
      rw [← hr]
      intro h
      exact absurd (congrArg FraudRecommendation.action h) (by decide)

/-- C9 witness: an environment reporting a dispute for the charge, queried
with `include_events = false`, does not produce the dispute-refund
recommendation. -/
theorem include_events_false_no_dispute_refund_witness :
    insightDisputes
        ⟨fun _ => none, fun cid => some ⟨cid, none, none⟩, fun _ => [],
          fun _ => [], fun _ => [⟨"dp_up", 100, "open"⟩]⟩
        ⟨none, some "ch_9", false⟩ "ch_9" = []
      ∧ ∀ r,
          buildFraudInsight
              ⟨fun _ => none, fun cid => some ⟨cid, none, none⟩, fun _ => [],
                fun _ => [], fun _ => [⟨"dp_up", 100, "open"⟩]⟩
              ⟨none, some "ch_9", false⟩ = some r →
            r.recommendation ≠
              ⟨FraudAction.refund,
                "Existing dispute detected. Prefer immediate refund to reduce losses."⟩ :=
  ⟨(include_events_false_no_dispute_refund
      ⟨fun _ => none, fun cid => some ⟨cid, none, none⟩, fun _ => [],
        fun _ => [], fun _ => [⟨"dp_up", 100, "open"⟩]⟩
      ⟨none, some "ch_9", false⟩ rfl).1 "ch_9",
    (include_events_false_no_dispute_refund
      ⟨fun _ => none, fun cid => some ⟨cid, none, none⟩, fun _ => [],
        fun _ => [], fun _ => [⟨"dp_up", 100, "open"⟩]⟩
      ⟨none, some "ch_9", false⟩ rfl).2⟩

/-- A JSON-like runtime value, modelling what a `LogContext` entry can hold:
primitives, `null`, arrays, and nested plain objects. -/
inductive JsonValue where
  | str (s : String)
  | num (n : Int)
  | bool (b : Bool)
  | null
  | arr (elems : List JsonValue)
  | obj (fields : List (String × JsonValue))

/-- JavaScript `toLowerCase`, modelled as character-wise lowercasing (the
keys involved are ASCII, where the two agree). -/
def jsToLowerCase (s : String) : String :=
  ⟨s.data.map Char.toLower⟩

/-- The `secretKeys` set of the logger module, verbatim: note that it lists
`apiKey` in mixed case even though it is only ever compared against
lowercased keys. -/
def secretKeys : List String :=
  ["api_key", "apiKey", "stripe_api_key", "authorization", "token", "secret"]

mutual

/-- `sanitizeContext` from the logger module (lines 86-98): redact entries
whose lowercased key is in `secretKeys`, recurse into nested non-array,
non-null objects, pass everything else through. -/
def sanitizeContext : List (String × JsonValue) → List (String × JsonValue)
  | [] => []
  | (key, value) :: rest =>
    (key,
      if secretKeys.contains (jsToLowerCase key) then JsonValue.str "[REDACTED]"
      else sanitizeValue value) :: sanitizeContext rest

/-- The per-value part of `sanitizeContext`: `typeof value === 'object' &&
value !== null && !Array.isArray(value)` selects exactly the `obj` case. -/
def sanitizeValue : JsonValue → JsonValue
  | JsonValue.obj fields => JsonValue.obj (sanitizeContext fields)
  | v => v

end

example :
    sanitizeContext [("token", JsonValue.str "abc"), ("x", JsonValue.str "y")] =
      [("token", JsonValue.str "[REDACTED]"), ("x", JsonValue.str "y")] := rfl

example :
    sanitizeContext [("apiKey", JsonValue.str "abc")] =
      [("apiKey", JsonValue.str "abc")] := rfl

example :
    sanitizeContext [("Token", JsonValue.str "abc")] =
      [("Token", JsonValue.str "[REDACTED]")] := rfl

example :
    sanitizeContext [("a", JsonValue.obj [("secret", JsonValue.str "s")])] =
      [("a", JsonValue.obj [("secret", JsonValue.str "[REDACTED]")])] := rfl

example :
    sanitizeContext
        [("xs", JsonValue.arr [JsonValue.obj [("secret", JsonValue.str "s")]])] =
      [("xs", JsonValue.arr [JsonValue.obj [("secret", JsonValue.str "s")]])] := rfl

/-- The redaction key set exactly as the claim states it: five keys, all
lowercase. -/
def claimSecretKeys : List String :=
  ["api_key", "stripe_api_key", "authorization", "token", "secret"]

mutual

/-- Modelled from the claim wording: redact exactly the entries whose
lowercased key is among the five `claimSecretKeys`, recurse into nested plain
objects, leave everything else unchanged. -/
def sanitizeContextSpec : List (String × JsonValue) → List (String × JsonValue)
  | [] => []
  | (key, value) :: rest =>
    (key,
      if claimSecretKeys.contains (jsToLowerCase key) then JsonValue.str "[REDACTED]"
      else sanitizeValueSpec value) :: sanitizeContextSpec rest

/-- The per-value part of the claim-side sanitizer. -/
def sanitizeValueSpec : JsonValue → JsonValue
  | JsonValue.obj fields => JsonValue.obj (sanitizeContextSpec fields)
  | v => v

end

/-- Character-wise lowercasing never produces the uppercase letter `K`. -/
theorem char_toLower_ne_K (c : Char) : Char.toLower c ≠ 'K' := by
  intro heq
  simp only [Char.toLower] at heq
  split at heq
  · next hcond =>
    have hval : (c.toNat + 32).isValidChar := Or.inl (by omega)
    have h2 := congrArg Char.toNat heq
    have h3 : (Char.ofNat (c.toNat + 32)).toNat = c.toNat + 32 := by
      unfold Char.ofNat
      split
      · rfl
      · contradiction
    rw [h3] at h2
    have h4 : ('K' : Char).toNat = 75 := by decide
    omega
  · next hcond =>
    subst heq
    exact hcond (by decide)

/-- No lowercased key can equal the mixed-case entry `apiKey`, so that entry
of `secretKeys` is inert. -/
theorem jsToLowerCase_ne_apiKey (s : String) : jsToLowerCase s ≠ "apiKey" := by
  intro h
  have h2 := congrArg String.data h
  have h3 : ('K' : Char) ∈ s.data.map Char.toLower := by
    rw [show (jsToLowerCase s).data = s.data.map Char.toLower from rfl] at h2
    rw [h2]
    decide
  obtain ⟨c, _, hc⟩ := List.mem_map.mp h3
  exact char_toLower_ne_K c hc

/-- Membership of a lowercased key in the implementation key set and in the
claimed five-key set coincide. -/
theorem secretKeys_contains_eq (key : String) :
    secretKeys.contains (jsToLowerCase key) =
      claimSecretKeys.contains (jsToLowerCase key) := by
  have h : decide (jsToLowerCase key = "apiKey") = false :=
    decide_eq_false (jsToLowerCase_ne_apiKey key)
  simp [secretKeys, claimSecretKeys, List.contains_cons, h]

/-- Joint strong induction (on sizes) showing the implementation sanitizer
and the claim-side sanitizer agree everywhere. -/
theorem sanitize_agree_aux (n : Nat) :
    (∀ ctx : List (String × JsonValue), sizeOf ctx ≤ n →
        sanitizeContext ctx = sanitizeContextSpec ctx)
      ∧ ∀ v : JsonValue, sizeOf v ≤ n → sanitizeValue v = sanitizeValueSpec v := by
  induction n using Nat.strong_induction_on with
  | _ n ih =>
    constructor
    · intro ctx hctx
      cases ctx with
      | nil => rfl
      | cons head rest =>
        obtain ⟨key, value⟩ := head
        have hsz : sizeOf rest < sizeOf ((key, value) :: rest) := by
          simp
        have hszv : sizeOf value < sizeOf ((key, value) :: rest) := by
          simp only [List.cons.sizeOf_spec, Prod.mk.sizeOf_spec]
          omega
        have hrest : sanitizeContext rest = sanitizeContextSpec rest :=
          (ih (sizeOf rest) (by omega)).1 rest le_rfl
        have hval : sanitizeValue value = sanitizeValueSpec value :=
          (ih (sizeOf value) (by omega)).2 value le_rfl
        simp only [sanitizeContext, sanitizeContextSpec, secretKeys_contains_eq,
          hrest, hval]
    · intro v hv
      cases v with
      | obj fields =>
        have hsz : sizeOf fields < sizeOf (JsonValue.obj fields) := by
          simp
        have hfields : sanitizeContext fields = sanitizeContextSpec fields :=
          (ih (sizeOf fields) (by omega)).1 fields le_rfl
        simp only [sanitizeValue, sanitizeValueSpec, hfields]
      | str s => rfl
      | num m => rfl
      | bool b => rfl
      | null => rfl
      | arr elems => rfl

/-- C10: on every log context, `sanitizeContext` behaves exactly as claimed:
it redacts precisely the entries whose lowercased key is one of `api_key`,
`stripe_api_key`, `authorization`, `token`, `secret`, recurses into nested
plain objects, and leaves all other values (arrays included, and keys such
as `apiKey` whose lowercased form is outside that set) unchanged. -/
theorem sanitizeContext_matches_claim (ctx : List (String × JsonValue)) :
    sanitizeContext ctx = sanitizeContextSpec ctx :=
  (sanitize_agree_aux (sizeOf ctx)).1 ctx le_rfl

end StripeMcp
